import Mathlib

/-!
Shallow embedding of the tezgah backend (src/main.py, src/models.py):
a CRUD service over Products and Colors plus an Excel bulk-import path.

Modelling conventions:
* The relational store is a `DB` value: lists of `Product` and `Color`
  rows plus the next auto-increment ids (SQLite primary keys start at 1).
* Spreadsheet cells are `Cell`: missing (`na`, pandas NaN), a string, or
  a numeric value (modelled as `Rat`; the code never does arithmetic on
  them, only stores and compares).  `Cell.render` models pandas
  `astype(str)` on a cell (floats render as "10.0"-style strings).
* Handler outcomes are `Except ApiError _`.  `ApiError.http s d` is a
  `raise HTTPException(status_code=s, detail=d)`;
  `ApiError.integrityError` is a store constraint violation raised by
  `db.commit()` that no handler catches (the HTTP layer surfaces an
  uncaught exception as a 500 server error, so it is not a client error).
* `database.py` (the SQLAlchemy `SessionLocal`) is not under src/.
  Session visibility is modelled from the spec: the Upsert Engine's
  existence checks see rows added earlier in the same batch ("the
  creation must be durably visible before subsequent ... rows"), so
  `db.add` appends to the visible row list at once.
* `upload_excel` counts the `db.commit()` calls it performs, so that
  commit batching is observable: the code commits each new Product
  inside the row loop and performs one final commit at the end.
-/

namespace Tezgah

/-- Python `str.strip()` (and pandas `.str.strip()` / `.columns.str.strip()`):
remove leading and trailing whitespace. -/
def pyStrip (s : String) : String :=
  ⟨((s.data.dropWhile Char.isWhitespace).reverse.dropWhile
      Char.isWhitespace).reverse⟩

/-- Python `str.endswith(sfx)`. -/
def pyEndsWith (s sfx : String) : Bool :=
  sfx.data.isSuffixOf s.data

/-- A parsed spreadsheet cell: missing (pandas NaN), a string, or a number. -/
inductive Cell where
  | na : Cell
  | str (s : String) : Cell
  | num (q : Rat) : Cell
deriving DecidableEq, Repr

/-- Whether the cell is missing (pandas NaN); `dropna` removes rows on this. -/
def Cell.isNa : Cell → Bool
  | .na => true
  | _ => false

/-- Pandas `astype(str)` on one cell.  Excel numeric cells arrive as floats,
so an integral number renders with a trailing ".0" (e.g. "5.0"). -/
def Cell.render : Cell → String
  | .na => "nan"
  | .str s => s
  | .num q => if q.den = 1 then toString q.num ++ ".0" else toString q

/-- A row of the products table (models.py: id primary key, name unique). -/
structure Product where
  id : Nat
  name : String
deriving DecidableEq, Repr

/-- A row of the colors table (models.py).  The price column is `Cell`-valued
because the import path stores the raw spreadsheet cell into it. -/
structure Color where
  id : Nat
  name : String
  product_id : Nat
  price : Cell
  currency : String
deriving DecidableEq, Repr

/-- The relational store: both tables plus the next auto-increment ids. -/
structure DB where
  products : List Product
  colors : List Color
  nextProductId : Nat
  nextColorId : Nat
deriving DecidableEq, Repr

/-- A fresh store (SQLite assigns ids from 1). -/
def emptyDB : DB := ⟨[], [], 1, 1⟩

/-- How a handler fails: an explicit `HTTPException(status, detail)`, or an
uncaught store constraint violation raised by `db.commit()`. -/
inductive ApiError where
  | http (status : Nat) (detail : String) : ApiError
  | integrityError : ApiError
deriving DecidableEq, Repr

/-- Whether the failure reaches the caller as a client (4xx) error.  An
uncaught `IntegrityError` is turned into a 500 server error by the HTTP
framework, so it is not a client error. -/
def ApiError.isClientError : ApiError → Bool
  | .http s _ => 400 ≤ s && s < 500
  | .integrityError => false

/-- POST /products/ (main.py `add_product`): adds the product and commits.
The handler performs no duplicate check; the unique constraint on
products.name (models.py) makes the commit raise `IntegrityError` when the
name already exists, and nothing is inserted. -/
def add_product (db : DB) (name : String) : Except ApiError (DB × Nat) :=
  if db.products.any (fun p => p.name == name) then
    .error .integrityError
  else
    .ok ({ db with
            products := db.products ++ [⟨db.nextProductId, name⟩],
            nextProductId := db.nextProductId + 1 },
         db.nextProductId)

/-- POST /colors/ (main.py `add_color`): 404 when the product id does not
resolve, otherwise inserts the color unconditionally (no per-product name
uniqueness check on this path). -/
def add_color (db : DB) (product_id : Nat) (name : String) (price : Rat)
    (currency : String) : Except ApiError (DB × Nat) :=
  match db.products.find? (fun p => p.id == product_id) with
  | none => .error (.http 404 "Ürün bulunamadı")
  | some _ =>
      .ok ({ db with
              colors := db.colors ++
                [⟨db.nextColorId, name, product_id, .num price, currency⟩],
              nextColorId := db.nextColorId + 1 },
           db.nextColorId)

/-- The field assignment performed by PUT /colors/{id}: name, price and
currency are replaced, id and product_id are kept. -/
def applyColorUpdate (name : String) (price : Rat) (currency : String)
    (c : Color) : Color :=
  { c with name := name, price := .num price, currency := currency }

/-- `db.query(Color).filter(Color.id == cid).first()` followed by mutating
that row: only the first matching row is changed. -/
def updateFirstColor (cs : List Color) (cid : Nat) (f : Color → Color) :
    List Color :=
  match cs with
  | [] => []
  | c :: rest =>
      if c.id == cid then f c :: rest else c :: updateFirstColor rest cid f

/-- PUT /colors/{id} (main.py `update_color`): 404 when the color id does
not resolve, otherwise replaces name, price and currency of that row. -/
def update_color (db : DB) (color_id : Nat) (name : String) (price : Rat)
    (currency : String) : Except ApiError DB :=
  if db.colors.any (fun c => c.id == color_id) then
    .ok { db with
            colors := updateFirstColor db.colors color_id
              (applyColorUpdate name price currency) }
  else
    .error (.http 404 "Renk bulunamadı")

/-- DELETE /products/{id} (main.py `delete_product`): 404 when the id does
not resolve; otherwise deletes the product, and the relationship's
`cascade="all, delete"` (models.py) deletes every color referencing it. -/
def delete_product (db : DB) (product_id : Nat) : Except ApiError DB :=
  if db.products.any (fun p => p.id == product_id) then
    .ok { db with
            products := db.products.filter (fun p => p.id != product_id),
            colors := db.colors.filter (fun c => c.product_id != product_id) }
  else
    .error (.http 404 "Ürün bulunamadı")

/-- The required spreadsheet columns of main.py (the spec's
{Product Name, Color, Price, Currency} are these, in Turkish). -/
def urunAdiCol : String := "Ürün Adı"

/-- The color-name column header. -/
def renkCol : String := "Renk"

/-- The price column header. -/
def fiyatCol : String := "Fiyat"

/-- The currency column header. -/
def paraBirimiCol : String := "Para Birimi"

/-- The required column set checked with `issubset`. -/
def requiredColumns : List String := [urunAdiCol, renkCol, fiyatCol, paraBirimiCol]

/-- A parsed spreadsheet: the header row and the data rows, each row a list
of cells aligned with the headers. -/
structure Sheet where
  headers : List String
  rows : List (List Cell)
deriving DecidableEq, Repr

/-- `row[col]`: the cell under the named column (NaN when the column or the
cell is absent, as pandas yields for a ragged/missing entry). -/
def getCell (headers : List String) (row : List Cell) (col : String) : Cell :=
  match headers.findIdx? (fun h => h == col) with
  | some i => row.getD i .na
  | none => .na

/-- `dropna(subset=[the four columns])` keeps a row iff none of the four
cells is missing.  This runs BEFORE any whitespace stripping. -/
def keepRow (headers : List String) (row : List Cell) : Bool :=
  !(getCell headers row urunAdiCol).isNa &&
    !(getCell headers row renkCol).isNa &&
    !(getCell headers row fiyatCol).isNa &&
    !(getCell headers row paraBirimiCol).isNa

/-- A row after preprocessing: `astype(str).str.strip()` applied to the
product name, color name and currency columns; the price cell is passed
through raw. -/
structure PRow where
  urunAdi : String
  renk : String
  fiyat : Cell
  paraBirimi : String
deriving DecidableEq, Repr

/-- The per-row preprocessing of main.py lines 179-181. -/
def toPRow (headers : List String) (row : List Cell) : PRow :=
  { urunAdi := pyStrip (getCell headers row urunAdiCol).render,
    renk := pyStrip (getCell headers row renkCol).render,
    fiyat := getCell headers row fiyatCol,
    paraBirimi := pyStrip (getCell headers row paraBirimiCol).render }

/-- `dropna` then column-wise `astype(str).str.strip()`, in the code's order. -/
def processedRows (s : Sheet) : List PRow :=
  (s.rows.filter (keepRow s.headers)).map (toPRow s.headers)

/-- Insert the color of one row unless a color with the same name already
exists under the product; carries the commit counter unchanged (colors are
only committed at the end of the import). -/
def addColorIfAbsent (db : DB) (commits : Nat) (pid : Nat) (r : PRow) :
    DB × Nat :=
  if db.colors.any (fun c => c.name == r.renk && c.product_id == pid) then
    (db, commits)
  else
    ({ db with
        colors := db.colors ++ [⟨db.nextColorId, r.renk, pid, r.fiyat, r.paraBirimi⟩],
        nextColorId := db.nextColorId + 1 },
     commits)

/-- One iteration of the import loop: resolve or create (and commit) the
product, then insert the color unless its name already exists under that
product.  The `Nat` component counts `db.commit()` calls so far. -/
def importRow (st : DB × Nat) (r : PRow) : DB × Nat :=
  match st.1.products.find? (fun p => p.name == r.urunAdi) with
  | some p => addColorIfAbsent st.1 st.2 p.id r
  | none =>
      addColorIfAbsent
        { st.1 with
            products := st.1.products ++ [⟨st.1.nextProductId, r.urunAdi⟩],
            nextProductId := st.1.nextProductId + 1 }
        (st.2 + 1) st.1.nextProductId r

/-- The whole import loop plus the final `db.commit()`; returns the store
and the total number of commits performed. -/
def importRows (db : DB) (rows : List PRow) : DB × Nat :=
  let st := rows.foldl importRow (db, 0)
  (st.1, st.2 + 1)

/-- `excel_data.columns.str.strip()`. -/
def stripHeaders (headers : List String) : List String :=
  headers.map pyStrip

/-- POST /upload-excel/ (main.py `upload_excel`).  `parsed` is the result of
`pd.read_excel` on the uploaded bytes (`none` when parsing raised).  Checks
the filename extension, the parse result and the required columns before
touching the store, then runs the import loop. -/
def upload_excel (filename : String) (parsed : Option Sheet) (db : DB) :
    Except ApiError (DB × Nat) :=
  if !pyEndsWith filename ".xlsx" then
    .error (.http 400 "Lütfen .xlsx formatında bir dosya yükleyin")
  else
    match parsed with
    | none => .error (.http 400 "Excel dosyası okunamadı")
    | some sheet0 =>
        let sheet : Sheet := ⟨stripHeaders sheet0.headers, sheet0.rows⟩
        if !requiredColumns.all (fun c => sheet.headers.contains c) then
          .error (.http 400 "Excel dosyasında eksik sütun var!")
        else
          .ok (importRows db (processedRows sheet))

/-- Auto-increment well-formedness: every stored color id is below the next
id the store will assign.  True of every store built through the API. -/
def colorIdsBelow (db : DB) : Prop :=
  ∀ c ∈ db.colors, c.id < db.nextColorId

/-! ## Concrete fixtures -/

/-- The spec's three-row import fixture: ("Shirt","Red",10,"USD"),
("Shirt","Red",12,"EUR"), ("Shirt","Blue",10,"USD") under the required
headers. -/
def dupRowSheet : Sheet :=
  ⟨[urunAdiCol, renkCol, fiyatCol, paraBirimiCol],
   [[.str "Shirt", .str "Red", .num 10, .str "USD"],
    [.str "Shirt", .str "Red", .num 12, .str "EUR"],
    [.str "Shirt", .str "Blue", .num 10, .str "USD"]]⟩

/-- One otherwise-valid row whose product-name cell is whitespace-only. -/
def wsNameSheet : Sheet :=
  ⟨[urunAdiCol, renkCol, fiyatCol, paraBirimiCol],
   [[.str "   ", .str "Red", .num 10, .str "USD"]]⟩

/-- A row whose product-name cell is missing (NaN), then a valid row. -/
def naNameSheet : Sheet :=
  ⟨[urunAdiCol, renkCol, fiyatCol, paraBirimiCol],
   [[.na, .str "Red", .num 10, .str "USD"],
    [.str "Pant", .str "Blue", .num 5, .str "USD"]]⟩

/-- A store already holding a product named "Shirt". -/
def oneShirtDB : DB := ⟨[⟨1, "Shirt"⟩], [], 2, 1⟩

/-- Two already-preprocessed rows naming two distinct new products. -/
def twoProductRows : List PRow :=
  [⟨"A", "Red", .num 1, "USD"⟩, ⟨"B", "Blue", .num 2, "USD"⟩]

/-! ## C1 -/

/-- C1: importing the rows [("Shirt","Red",10,"USD"), ("Shirt","Red",12,"EUR"),
("Shirt","Blue",10,"USD")] into an empty store yields exactly one Product
"Shirt" (id 1) and exactly two Colors under it: "Red" at price 10 currency
"USD" (the first occurrence wins) and "Blue" at price 10 currency "USD"; the
second "Red" row creates and updates nothing (the next color id is 3, and the
stored "Red" still carries 10/"USD"). -/
theorem c1_import_dedup :
    upload_excel "urunler.xlsx" (some dupRowSheet) emptyDB =
      .ok (⟨[⟨1, "Shirt"⟩],
            [⟨1, "Red", 1, .num 10, "USD"⟩, ⟨2, "Blue", 1, .num 10, "USD"⟩],
            2, 3⟩, 2) := by
  rfl

/-! ## C2 -/

/-- C2 counterexample: the claim says a row whose product-name cell is
whitespace-only is skipped entirely, with no Product and no Color created
from it.  In the code `dropna` runs BEFORE `str.strip`, so the whitespace-only
cell is not missing, survives the drop, and the import creates a Product
named "" and its Color from that row. -/
theorem c2_counterexample_ws_row_imports :
    upload_excel "f.xlsx" (some wsNameSheet) emptyDB =
      .ok (⟨[⟨1, ""⟩], [⟨1, "Red", 1, .num 10, "USD"⟩], 2, 2⟩, 2) := by
  rfl

/-- C2 amended: a row is skipped exactly when one of the four required cells
is missing (pandas NaN), and this is judged BEFORE whitespace trimming: every
row that survives preprocessing comes from a spreadsheet row whose four
required cells are all present, and a row whose Product Name cell is truly
missing is dropped while other valid rows still import.  (A whitespace-only
cell is not missing, so such a row is NOT skipped: it imports with the
whitespace stripped, possibly leaving an empty name.) -/
theorem c2_amended_drop_policy :
    (∀ (s : Sheet) (pr : PRow), pr ∈ processedRows s →
        ∃ row ∈ s.rows,
          (getCell s.headers row urunAdiCol).isNa = false ∧
          (getCell s.headers row renkCol).isNa = false ∧
          (getCell s.headers row fiyatCol).isNa = false ∧
          (getCell s.headers row paraBirimiCol).isNa = false ∧
          pr = toPRow s.headers row) ∧
    upload_excel "f.xlsx" (some naNameSheet) emptyDB =
      .ok (⟨[⟨1, "Pant"⟩], [⟨1, "Blue", 1, .num 5, "USD"⟩], 2, 2⟩, 2) := by
  constructor
  · intro s pr hpr
    rcases List.mem_map.mp hpr with ⟨row, hrow, hEq⟩
    rcases List.mem_filter.mp hrow with ⟨hmem, hkeep⟩
    simp only [keepRow, Bool.and_eq_true, Bool.not_eq_true'] at hkeep
    exact ⟨row, hmem, hkeep.1.1.1, hkeep.1.1.2, hkeep.1.2, hkeep.2, hEq.symm⟩
  · rfl

/-- C2 amended, instantiated: the sole processed row of `naNameSheet` (the
"Pant" row) indeed originates from a raw row whose four required cells are all
present. -/
theorem c2_amended_drop_policy_witness :
    (⟨"Pant", "Blue", .num 5, "USD"⟩ : PRow) ∈ processedRows naNameSheet ∧
    ∃ row ∈ naNameSheet.rows,
      (getCell naNameSheet.headers row urunAdiCol).isNa = false ∧
      (getCell naNameSheet.headers row renkCol).isNa = false ∧
      (getCell naNameSheet.headers row fiyatCol).isNa = false ∧
      (getCell naNameSheet.headers row paraBirimiCol).isNa = false ∧
      (⟨"Pant", "Blue", .num 5, "USD"⟩ : PRow) = toPRow naNameSheet.headers row :=
  ⟨by decide, c2_amended_drop_policy.1 naNameSheet ⟨"Pant", "Blue", .num 5, "USD"⟩ (by decide)⟩

/-! ## C3 -/

/-- C3 counterexample: with a product "Shirt" already stored, a second
`POST /products/` with the same name fails with the store's
`IntegrityError` escaping the handler uncaught, which the HTTP layer
surfaces as a 500 server error — not as a 409-equivalent client error as
the claim states.  (No second product is created: the store is unchanged
on the error.) -/
theorem c3_counterexample_duplicate_not_client_error :
    add_product oneShirtDB "Shirt" = .error .integrityError ∧
    ApiError.isClientError .integrityError = false := by
  exact ⟨rfl, rfl⟩

/-- C3 amended: for every existing Product, a `POST /products/` request with
the same name fails — the handler performs no duplicate check, so the unique
constraint on the name makes the commit raise an `IntegrityError` that no
code catches (surfaced as a server error, not a 409 client error) — and no
second Product with that name is created (the store is unchanged on the
error). -/
theorem c3_amended_duplicate_rejected (db : DB) (name : String)
    (h : ∃ p ∈ db.products, p.name = name) :
    add_product db name = .error .integrityError ∧
    ApiError.isClientError .integrityError = false := by
  rcases h with ⟨p, hp, hname⟩
  have hany : db.products.any (fun q => q.name == name) = true :=
    List.any_eq_true.mpr ⟨p, hp, by simp [hname]⟩
  refine ⟨?_, rfl⟩
  simp [add_product, hany]

/-- C3 amended, instantiated at a store holding "Shirt". -/
theorem c3_amended_duplicate_rejected_witness :
    (∃ p ∈ oneShirtDB.products, p.name = "Shirt") ∧
    (add_product oneShirtDB "Shirt" = .error .integrityError ∧
      ApiError.isClientError .integrityError = false) :=
  ⟨by decide, c3_amended_duplicate_rejected oneShirtDB "Shirt" (by decide)⟩

/-! ## C4 -/

/-- `addColorIfAbsent` never commits and never allocates a product id. -/
theorem addColorIfAbsent_commits_nextProductId (db : DB) (commits pid : Nat)
    (r : PRow) :
    (addColorIfAbsent db commits pid r).2 = commits ∧
    (addColorIfAbsent db commits pid r).1.nextProductId = db.nextProductId := by
  unfold addColorIfAbsent
  split <;> exact ⟨rfl, rfl⟩

/-- One import-loop step commits exactly as often as it allocates a new
product id. -/
theorem importRow_commits (st : DB × Nat) (r : PRow) :
    (importRow st r).2 + st.1.nextProductId =
      st.2 + (importRow st r).1.nextProductId := by
  unfold importRow
  split
  next p _ =>
    rcases addColorIfAbsent_commits_nextProductId st.1 st.2 p.id r with ⟨h1, h2⟩
    simp only [h1, h2]
  next _ =>
    rcases addColorIfAbsent_commits_nextProductId
      { st.1 with
          products := st.1.products ++ [⟨st.1.nextProductId, r.urunAdi⟩],
          nextProductId := st.1.nextProductId + 1 }
      (st.2 + 1) st.1.nextProductId r with ⟨h1, h2⟩
    simp only [h1, h2]
    omega

/-- Across the whole loop, commits performed equal product ids allocated. -/
theorem foldl_importRow_commits (rows : List PRow) (st : DB × Nat) :
    (rows.foldl importRow st).2 + st.1.nextProductId =
      st.2 + (rows.foldl importRow st).1.nextProductId := by
  induction rows generalizing st with
  | nil => simp
  | cons r rows ih =>
      have h1 := importRow_commits st r
      have h2 := ih (importRow st r)
      simp only [List.foldl_cons]
      omega

/-- C4 counterexample: importing two rows that name two distinct new
products performs three separate commits — two of them inside the row loop,
before processing ends (the loop alone has already committed twice) — so the
changes of one import are not committed atomically in a single batch at the
end. -/
theorem c4_counterexample_three_commits :
    (importRows emptyDB twoProductRows).2 = 3 ∧
    (twoProductRows.foldl importRow (emptyDB, 0)).2 = 2 := by
  exact ⟨rfl, rfl⟩

/-- C4 amended: the import is not committed as one atomic batch.  Every new
Product is committed individually inside the row loop the moment it is
created, and only the new Colors are deferred to the single final commit:
the number of commits of one import is the number of newly created products
plus one.  (Nothing in the loop catches a failure or names a failing row.) -/
theorem c4_amended_commit_per_new_product (db : DB) (rows : List PRow) :
    (importRows db rows).2 + db.nextProductId =
      ((importRows db rows).1.nextProductId) + 1 := by
  have h := foldl_importRow_commits rows (db, 0)
  simp only [importRows]
  simp at h
  omega

/-! ## C6 -/

/-- C6: a POST /colors/ whose product_id resolves to no existing Product
fails with the 404 `HTTPException` (a client error), and no Color row is
created — the handler raises before touching the store, which is unchanged
on this error. -/
theorem c6_add_color_missing_product (db : DB) (pid : Nat) (name : String)
    (price : Rat) (currency : String)
    (h : ∀ p ∈ db.products, p.id ≠ pid) :
    add_color db pid name price currency =
      .error (.http 404 "Ürün bulunamadı") ∧
    ApiError.isClientError (.http 404 "Ürün bulunamadı") = true := by
  have hfind : db.products.find? (fun p => p.id == pid) = none :=
    List.find?_eq_none.mpr (fun p hp => by simp [h p hp])
  exact ⟨by simp [add_color, hfind], rfl⟩

/-- C6, instantiated: the store holding only product id 1 rejects a color
for product id 2. -/
theorem c6_add_color_missing_product_witness :
    (∀ p ∈ oneShirtDB.products, p.id ≠ 2) ∧
    (add_color oneShirtDB 2 "Red" 10 "USD" =
        .error (.http 404 "Ürün bulunamadı") ∧
      ApiError.isClientError (.http 404 "Ürün bulunamadı") = true) :=
  ⟨by decide, c6_add_color_missing_product oneShirtDB 2 "Red" 10 "USD" (by decide)⟩

/-! ## C7 -/

/-- C7: DELETE /products/{id} of an existing Product succeeds, removes that
Product, cascades to every Color whose product_id references it (none is
left, every unrelated Product and Color survives, and the id counters are
untouched); for an id that resolves to no Product it fails with the 404
`HTTPException` and deletes nothing. -/
theorem c7_delete_product_cascade (db : DB) (pid : Nat) :
    ((∃ p ∈ db.products, p.id = pid) →
      ∃ db', delete_product db pid = .ok db' ∧
        (∀ p ∈ db'.products, p.id ≠ pid) ∧
        (∀ c ∈ db'.colors, c.product_id ≠ pid) ∧
        (∀ p ∈ db.products, p.id ≠ pid → p ∈ db'.products) ∧
        (∀ c ∈ db.colors, c.product_id ≠ pid → c ∈ db'.colors) ∧
        (∀ p ∈ db'.products, p ∈ db.products) ∧
        (∀ c ∈ db'.colors, c ∈ db.colors) ∧
        db'.nextProductId = db.nextProductId ∧
        db'.nextColorId = db.nextColorId) ∧
    ((∀ p ∈ db.products, p.id ≠ pid) →
      delete_product db pid = .error (.http 404 "Ürün bulunamadı")) := by
  constructor
  · rintro ⟨p, hp, hpid⟩
    have hany : db.products.any (fun q => q.id == pid) = true :=
      List.any_eq_true.mpr ⟨p, hp, by simp [hpid]⟩
    refine ⟨{ db with
                products := db.products.filter (fun q => q.id != pid),
                colors := db.colors.filter (fun c => c.product_id != pid) },
            by simp [delete_product, hany], ?_, ?_, ?_, ?_, ?_, ?_, rfl, rfl⟩
    · intro q hq
      simpa using (List.mem_filter.mp hq).2
    · intro c hc
      simpa using (List.mem_filter.mp hc).2
    · intro q hq hne
      exact List.mem_filter.mpr ⟨hq, by simpa using hne⟩
    · intro c hc hne
      exact List.mem_filter.mpr ⟨hc, by simpa using hne⟩
    · intro q hq
      exact (List.mem_filter.mp hq).1
    · intro c hc
      exact (List.mem_filter.mp hc).1
  · intro h
    have hany : db.products.any (fun q => q.id == pid) = false :=
      List.any_eq_false.mpr (fun q hq => by simp [h q hq])
    simp [delete_product, hany]

/-- A two-product store with one color under each product. -/
def twoProductDB : DB :=
  ⟨[⟨1, "Shirt"⟩, ⟨2, "Pant"⟩],
   [⟨1, "Red", 1, .num 10, "USD"⟩, ⟨2, "Blue", 2, .num 5, "USD"⟩],
   3, 3⟩

/-- C7, instantiated: deleting product 1 from `twoProductDB` cascades to its
color, and deleting the absent id 99 fails with 404. -/
theorem c7_delete_product_cascade_witness :
    ((∃ p ∈ twoProductDB.products, p.id = 1) ∧
      ∃ db', delete_product twoProductDB 1 = .ok db' ∧
        (∀ p ∈ db'.products, p.id ≠ 1) ∧
        (∀ c ∈ db'.colors, c.product_id ≠ 1) ∧
        (∀ p ∈ twoProductDB.products, p.id ≠ 1 → p ∈ db'.products) ∧
        (∀ c ∈ twoProductDB.colors, c.product_id ≠ 1 → c ∈ db'.colors) ∧
        (∀ p ∈ db'.products, p ∈ twoProductDB.products) ∧
        (∀ c ∈ db'.colors, c ∈ twoProductDB.colors) ∧
        db'.nextProductId = twoProductDB.nextProductId ∧
        db'.nextColorId = twoProductDB.nextColorId) ∧
    ((∀ p ∈ twoProductDB.products, p.id ≠ 99) ∧
      delete_product twoProductDB 99 = .error (.http 404 "Ürün bulunamadı")) :=
  ⟨⟨by decide, (c7_delete_product_cascade twoProductDB 1).1 (by decide)⟩,
   ⟨by decide, (c7_delete_product_cascade twoProductDB 99).2 (by decide)⟩⟩

/-! ## C8 -/

/-- C8: POST /upload-excel/ fails with a 400 `HTTPException` — a client
error, raised before any store access, so no Product or Color row is
created — in each of the three cases: the filename does not end in ".xlsx",
the bytes could not be parsed as a spreadsheet, and (after stripping
whitespace from the column headers) the required column set is not a subset
of the parsed headers. -/
theorem c8_upload_validation (filename : String) (parsed : Option Sheet)
    (db : DB) :
    (pyEndsWith filename ".xlsx" = false →
      upload_excel filename parsed db =
        .error (.http 400 "Lütfen .xlsx formatında bir dosya yükleyin")) ∧
    (pyEndsWith filename ".xlsx" = true → parsed = none →
      upload_excel filename parsed db =
        .error (.http 400 "Excel dosyası okunamadı")) ∧
    (∀ sheet0, pyEndsWith filename ".xlsx" = true → parsed = some sheet0 →
      requiredColumns.all
          (fun c => (stripHeaders sheet0.headers).contains c) = false →
      upload_excel filename parsed db =
        .error (.http 400 "Excel dosyasında eksik sütun var!")) ∧
    (∀ d, ApiError.isClientError (.http 400 d) = true) := by
  refine ⟨?_, ?_, ?_, fun d => rfl⟩
  · intro hext
    simp [upload_excel, hext]
  · intro hext hparse
    subst hparse
    simp [upload_excel, hext]
  · intro sheet0 hext hparse hcols
    subst hparse
    simp [upload_excel, hext, hcols]
    by_contra hno
    push_neg at hno
    have hall : requiredColumns.all
        (fun c => (stripHeaders sheet0.headers).contains c) = true :=
      List.all_eq_true.mpr (fun c hc => by simpa using hno c hc)
    rw [hall] at hcols
    cases hcols

/-- A sheet whose headers lack the currency column. -/
def noCurrencySheet : Sheet :=
  ⟨[urunAdiCol, renkCol, fiyatCol],
   [[.str "Shirt", .str "Red", .num 10]]⟩

/-- C8, instantiated at the three failing inputs: a ".csv" filename, an
unparseable ".xlsx" upload, and a sheet missing the currency column. -/
theorem c8_upload_validation_witness :
    (pyEndsWith "f.csv" ".xlsx" = false ∧
      upload_excel "f.csv" none emptyDB =
        .error (.http 400 "Lütfen .xlsx formatında bir dosya yükleyin")) ∧
    (pyEndsWith "f.xlsx" ".xlsx" = true ∧
      upload_excel "f.xlsx" none emptyDB =
        .error (.http 400 "Excel dosyası okunamadı")) ∧
    (requiredColumns.all
        (fun c => (stripHeaders noCurrencySheet.headers).contains c) = false ∧
      upload_excel "f.xlsx" (some noCurrencySheet) emptyDB =
        .error (.http 400 "Excel dosyasında eksik sütun var!")) :=
  ⟨⟨by decide, (c8_upload_validation "f.csv" none emptyDB).1 (by decide)⟩,
   ⟨by decide,
    (c8_upload_validation "f.xlsx" none emptyDB).2.1 (by decide) rfl⟩,
   ⟨by decide,
    (c8_upload_validation "f.xlsx" (some noCurrencySheet) emptyDB).2.2.1
      noCurrencySheet (by decide) rfl (by decide)⟩⟩

/-! ## C9 -/

/-- Updating the first matching row preserves the table's row count. -/
theorem updateFirstColor_length (cs : List Color) (cid : Nat)
    (f : Color → Color) :
    (updateFirstColor cs cid f).length = cs.length := by
  induction cs with
  | nil => rfl
  | cons c rest ih =>
      unfold updateFirstColor
      split <;> simp [ih]

/-- A row with a different id survives the update untouched. -/
theorem updateFirstColor_mem_of_ne (cs : List Color) (cid : Nat)
    (f : Color → Color) (c : Color) (hc : c ∈ cs) (hne : c.id ≠ cid) :
    c ∈ updateFirstColor cs cid f := by
  induction cs with
  | nil => cases hc
  | cons d rest ih =>
      unfold updateFirstColor
      rcases List.mem_cons.mp hc with h | h
      · subst h
        rw [if_neg (by simpa using hne)]
        exact List.mem_cons_self _ _
      · split
        · exact List.mem_cons_of_mem _ h
        · exact List.mem_cons_of_mem _ (ih h)

/-- When ids are distinct, the matching row appears updated in the result. -/
theorem updateFirstColor_mem_updated (cs : List Color) (cid : Nat)
    (f : Color → Color)
    (hnd : cs.Pairwise (fun a b => a.id ≠ b.id)) (c : Color) (hc : c ∈ cs)
    (hid : c.id = cid) : f c ∈ updateFirstColor cs cid f := by
  induction cs with
  | nil => cases hc
  | cons d rest ih =>
      unfold updateFirstColor
      rcases List.mem_cons.mp hc with h | h
      · subst h
        rw [if_pos (by simpa using hid)]
        exact List.mem_cons_self _ _
      · have hdc : d.id ≠ c.id := (List.pairwise_cons.mp hnd).1 c h
        rw [if_neg (by simpa using hid ▸ hdc)]
        exact List.mem_cons_of_mem _ (ih (List.pairwise_cons.mp hnd).2 h)

/-- Every row of the updated table is an untouched original or the update
of an original row whose id matched. -/
theorem updateFirstColor_from (cs : List Color) (cid : Nat)
    (f : Color → Color) (c' : Color)
    (h : c' ∈ updateFirstColor cs cid f) :
    c' ∈ cs ∨ ∃ c ∈ cs, c.id = cid ∧ c' = f c := by
  induction cs with
  | nil => simp [updateFirstColor] at h
  | cons d rest ih =>
      unfold updateFirstColor at h
      by_cases hd : (d.id == cid) = true
      · rw [if_pos hd] at h
        rcases List.mem_cons.mp h with h | h
        · exact Or.inr ⟨d, List.mem_cons_self _ _, by simpa using hd, h⟩
        · exact Or.inl (List.mem_cons_of_mem _ h)
      · rw [if_neg hd] at h
        rcases List.mem_cons.mp h with h | h
        · exact Or.inl (h ▸ List.mem_cons_self _ _)
        · rcases ih h with h | ⟨c, hc, hcid, hce⟩
          · exact Or.inl (List.mem_cons_of_mem _ h)
          · exact Or.inr ⟨c, List.mem_cons_of_mem _ hc, hcid, hce⟩

/-- C9: for an existing Color (in a store whose color ids are distinct, as
the primary key guarantees), PUT /colors/{id} succeeds and sets exactly the
fields name, price and currency of that Color to the request values: the
Color keeps its id and product_id, every other Color row is unchanged, the
row count is unchanged, and the Product table and id counters are untouched. -/
theorem c9_update_color_frame (db : DB) (cid : Nat) (name : String)
    (price : Rat) (currency : String)
    (hnd : db.colors.Pairwise (fun a b => a.id ≠ b.id))
    (h : ∃ c ∈ db.colors, c.id = cid) :
    ∃ db', update_color db cid name price currency = .ok db' ∧
      db'.products = db.products ∧
      db'.nextProductId = db.nextProductId ∧
      db'.nextColorId = db.nextColorId ∧
      db'.colors.length = db.colors.length ∧
      (∀ c ∈ db.colors, c.id = cid →
        (⟨c.id, name, c.product_id, .num price, currency⟩ : Color) ∈ db'.colors) ∧
      (∀ c ∈ db.colors, c.id ≠ cid → c ∈ db'.colors) ∧
      (∀ c' ∈ db'.colors, c' ∈ db.colors ∨
        ∃ c ∈ db.colors, c.id = cid ∧
          c' = ⟨c.id, name, c.product_id, .num price, currency⟩) := by
  rcases h with ⟨c0, hc0, hc0id⟩
  have hany : db.colors.any (fun c => c.id == cid) = true :=
    List.any_eq_true.mpr ⟨c0, hc0, by simp [hc0id]⟩
  refine ⟨{ db with
              colors := updateFirstColor db.colors cid
                (applyColorUpdate name price currency) },
          by simp [update_color, hany], rfl, rfl, rfl,
          updateFirstColor_length _ _ _, ?_, ?_, ?_⟩
  · intro c hc hcid
    exact updateFirstColor_mem_updated db.colors cid
      (applyColorUpdate name price currency) hnd c hc hcid
  · intro c hc hne
    exact updateFirstColor_mem_of_ne db.colors cid _ c hc hne
  · intro c' hc'
    rcases updateFirstColor_from db.colors cid _ c' hc' with h | ⟨c, hc, hcid, hce⟩
    · exact Or.inl h
    · exact Or.inr ⟨c, hc, hcid, hce⟩

/-- A store with two colors under one product, for the C9 instantiation. -/
def c9DB : DB :=
  ⟨[⟨1, "Shirt"⟩],
   [⟨1, "Red", 1, .num 10, "USD"⟩, ⟨2, "Blue", 1, .num 9, "USD"⟩],
   2, 3⟩

/-- C9, instantiated: updating color 1 of `c9DB` to ("Crimson", 11, "EUR"). -/
theorem c9_update_color_frame_witness :
    c9DB.colors.Pairwise (fun a b => a.id ≠ b.id) ∧
    (∃ c ∈ c9DB.colors, c.id = 1) ∧
    (∃ db', update_color c9DB 1 "Crimson" 11 "EUR" = .ok db' ∧
      db'.products = c9DB.products ∧
      db'.nextProductId = c9DB.nextProductId ∧
      db'.nextColorId = c9DB.nextColorId ∧
      db'.colors.length = c9DB.colors.length ∧
      (∀ c ∈ c9DB.colors, c.id = 1 →
        (⟨c.id, "Crimson", c.product_id, .num 11, "EUR"⟩ : Color) ∈ db'.colors) ∧
      (∀ c ∈ c9DB.colors, c.id ≠ 1 → c ∈ db'.colors) ∧
      (∀ c' ∈ db'.colors, c' ∈ c9DB.colors ∨
        ∃ c ∈ c9DB.colors, c.id = 1 ∧
          c' = ⟨c.id, "Crimson", c.product_id, .num 11, "EUR"⟩)) :=
  ⟨by decide, by decide,
   c9_update_color_frame c9DB 1 "Crimson" 11 "EUR" (by decide) (by decide)⟩

/-! ## C5 -/

/-- Invariant carried through the import loop: every color id is below the
next id, the next id never goes below its starting value `n0`, and every
color whose id was allocated at or after `n0` has a (product_id, name) key
different from that of every other color. -/
def ImportColorInv (n0 : Nat) (db : DB) : Prop :=
  (∀ c ∈ db.colors, c.id < db.nextColorId) ∧
  n0 ≤ db.nextColorId ∧
  (∀ c ∈ db.colors, n0 ≤ c.id →
    ∀ c' ∈ db.colors, c'.id ≠ c.id →
      c'.product_id ≠ c.product_id ∨ c'.name ≠ c.name)

/-- The color-insertion step preserves the invariant: it only inserts after
checking that no color with the same (name, product_id) exists. -/
theorem addColorIfAbsent_inv (n0 : Nat) (db : DB) (commits pid : Nat)
    (r : PRow) (h : ImportColorInv n0 db) :
    ImportColorInv n0 (addColorIfAbsent db commits pid r).1 := by
  rcases h with ⟨hlt, hle, hkey⟩
  unfold addColorIfAbsent
  split
  · exact ⟨hlt, hle, hkey⟩
  next hany =>
    have hno : ∀ c ∈ db.colors, ¬(c.name = r.renk ∧ c.product_id = pid) := by
      intro c hc hcontra
      exact hany (List.any_eq_true.mpr
        ⟨c, hc, by simp [hcontra.1, hcontra.2]⟩)
    refine ⟨?_, ?_, ?_⟩
    · intro c hc
      rcases List.mem_append.mp hc with h1 | h1
      · exact Nat.lt_succ_of_lt (hlt c h1)
      · simp only [List.mem_singleton] at h1
        subst h1
        exact Nat.lt_succ_self _
    · exact Nat.le_succ_of_le hle
    · intro c hc hcn c' hc' hne
      rcases List.mem_append.mp hc with h1 | h1 <;>
        rcases List.mem_append.mp hc' with h2 | h2
      · exact hkey c h1 hcn c' h2 hne
      · simp only [List.mem_singleton] at h2
        subst h2
        rcases not_and_or.mp (hno c h1) with h3 | h3
        · exact Or.inr (Ne.symm h3)
        · exact Or.inl (Ne.symm h3)
      · simp only [List.mem_singleton] at h1
        subst h1
        rcases not_and_or.mp (hno c' h2) with h3 | h3
        · exact Or.inr h3
        · exact Or.inl h3
      · simp only [List.mem_singleton] at h1 h2
        subst h1
        subst h2
        exact absurd rfl hne

/-- One loop iteration preserves the invariant (the product half of the
step touches neither the colors nor their id counter). -/
theorem importRow_inv (n0 : Nat) (st : DB × Nat) (r : PRow)
    (h : ImportColorInv n0 st.1) : ImportColorInv n0 (importRow st r).1 := by
  unfold importRow
  split
  next p _ => exact addColorIfAbsent_inv n0 st.1 st.2 p.id r h
  next _ => exact addColorIfAbsent_inv n0 _ _ _ r h

/-- The whole loop preserves the invariant. -/
theorem foldl_importRow_inv (n0 : Nat) (rows : List PRow) (st : DB × Nat)
    (h : ImportColorInv n0 st.1) :
    ImportColorInv n0 (rows.foldl importRow st).1 := by
  induction rows generalizing st with
  | nil => simpa using h
  | cons r rows ih =>
      simp only [List.foldl_cons]
      exact ih (importRow st r) (importRow_inv n0 st r h)

/-- C5: the per-product color-name uniqueness is asymmetric.  An import
never creates two Colors with an identical (case-sensitive,
whitespace-trimmed) name under the same Product: after any import, every
color whose id was created by it differs from every other color in
product_id or name.  A direct POST /colors/ whose (product_id, name) pair
already exists succeeds nonetheless and appends a second Color row with
that same name under that product. -/
theorem c5_color_uniqueness_asymmetry (db : DB) (rows : List PRow)
    (pid : Nat) (name : String) (price : Rat) (currency : String)
    (hwf : colorIdsBelow db)
    (hprod : ∃ p ∈ db.products, p.id = pid)
    (hdup : ∃ c ∈ db.colors, c.product_id = pid ∧ c.name = name) :
    (∀ c ∈ (importRows db rows).1.colors, db.nextColorId ≤ c.id →
      ∀ c' ∈ (importRows db rows).1.colors, c'.id ≠ c.id →
        c'.product_id ≠ c.product_id ∨ c'.name ≠ c.name) ∧
    add_color db pid name price currency =
      .ok ({ db with
              colors := db.colors ++
                [⟨db.nextColorId, name, pid, .num price, currency⟩],
              nextColorId := db.nextColorId + 1 },
           db.nextColorId) := by
  constructor
  · have hinv : ImportColorInv db.nextColorId db :=
      ⟨hwf, Nat.le_refl _,
       fun c hc hcn => absurd hcn (by have := hwf c hc; omega)⟩
    have h := foldl_importRow_inv db.nextColorId rows (db, 0) hinv
    simpa [importRows] using h.2.2
  · rcases hprod with ⟨p, hp, hpid⟩
    cases hfind : db.products.find? (fun q => q.id == pid) with
    | none =>
        have := List.find?_eq_none.mp hfind p hp
        simp [hpid] at this
    | some q => simp [add_color, hfind]

/-- A store already holding ("Shirt", color "Red"), for the C5 instantiation. -/
def c5DB : DB :=
  ⟨[⟨1, "Shirt"⟩], [⟨1, "Red", 1, .num 10, "USD"⟩], 2, 2⟩

/-- The duplicate "Red" import row for the C5 instantiation. -/
def c5Rows : List PRow := [⟨"Shirt", "Red", .num 12, "EUR"⟩]

/-- C5, instantiated: importing a duplicate "Red" row into `c5DB` creates no
second "Red", while POST /colors/ with the existing pair (1, "Red") appends
a second row. -/
theorem c5_color_uniqueness_asymmetry_witness :
    colorIdsBelow c5DB ∧
    (∃ p ∈ c5DB.products, p.id = 1) ∧
    (∃ c ∈ c5DB.colors, c.product_id = 1 ∧ c.name = "Red") ∧
    ((∀ c ∈ (importRows c5DB c5Rows).1.colors, c5DB.nextColorId ≤ c.id →
        ∀ c' ∈ (importRows c5DB c5Rows).1.colors, c'.id ≠ c.id →
          c'.product_id ≠ c.product_id ∨ c'.name ≠ c.name) ∧
      add_color c5DB 1 "Red" 12 "EUR" =
        .ok ({ c5DB with
                colors := c5DB.colors ++
                  [⟨c5DB.nextColorId, "Red", 1, .num 12, "EUR"⟩],
                nextColorId := c5DB.nextColorId + 1 },
             c5DB.nextColorId)) :=
  ⟨by unfold colorIdsBelow; decide, by decide, by decide,
   c5_color_uniqueness_asymmetry c5DB c5Rows 1 "Red" 12 "EUR"
     (by unfold colorIdsBelow; decide) (by decide) (by decide)⟩

/-! ## C10 -/

/-- The color-insertion step never touches the product table. -/
theorem addColorIfAbsent_products_eq (db : DB) (commits pid : Nat)
    (r : PRow) :
    (addColorIfAbsent db commits pid r).1.products = db.products := by
  unfold addColorIfAbsent
  split <;> rfl

/-- Any color present after the insertion step was already there or carries
exactly the row's (post-strip) name and currency and its raw price cell. -/
theorem addColorIfAbsent_colors_from (db : DB) (commits pid : Nat)
    (r : PRow) (c : Color)
    (hc : c ∈ (addColorIfAbsent db commits pid r).1.colors) :
    c ∈ db.colors ∨
      (c.name = r.renk ∧ c.currency = r.paraBirimi ∧ c.price = r.fiyat) := by
  unfold addColorIfAbsent at hc
  split at hc
  · exact Or.inl hc
  · rcases List.mem_append.mp hc with h | h
    · exact Or.inl h
    · simp only [List.mem_singleton] at h
      subst h
      exact Or.inr ⟨rfl, rfl, rfl⟩

/-- Any product present after one loop iteration was already there or is
named by that iteration's row. -/
theorem importRow_products_from (st : DB × Nat) (r : PRow) (p : Product)
    (hp : p ∈ (importRow st r).1.products) :
    p ∈ st.1.products ∨ p.name = r.urunAdi := by
  unfold importRow at hp
  split at hp
  · rw [addColorIfAbsent_products_eq] at hp
    exact Or.inl hp
  · rw [addColorIfAbsent_products_eq] at hp
    rcases List.mem_append.mp hp with h | h
    · exact Or.inl h
    · simp only [List.mem_singleton] at h
      subst h
      exact Or.inr rfl

/-- Any color present after one loop iteration was already there or carries
that iteration's row data. -/
theorem importRow_colors_from (st : DB × Nat) (r : PRow) (c : Color)
    (hc : c ∈ (importRow st r).1.colors) :
    c ∈ st.1.colors ∨
      (c.name = r.renk ∧ c.currency = r.paraBirimi ∧ c.price = r.fiyat) := by
  unfold importRow at hc
  split at hc
  · exact addColorIfAbsent_colors_from st.1 st.2 _ r c hc
  · exact addColorIfAbsent_colors_from
      { st.1 with
          products := st.1.products ++ [⟨st.1.nextProductId, r.urunAdi⟩],
          nextProductId := st.1.nextProductId + 1 }
      (st.2 + 1) st.1.nextProductId r c hc

/-- Loop-wide product provenance. -/
theorem foldl_importRow_products_from (rows : List PRow) (st : DB × Nat)
    (p : Product) (hp : p ∈ (rows.foldl importRow st).1.products) :
    p ∈ st.1.products ∨ ∃ r ∈ rows, p.name = r.urunAdi := by
  induction rows generalizing st with
  | nil => exact Or.inl (by simpa using hp)
  | cons r rows ih =>
      simp only [List.foldl_cons] at hp
      rcases ih (importRow st r) hp with h | ⟨r', hr', h⟩
      · rcases importRow_products_from st r p h with h | h
        · exact Or.inl h
        · exact Or.inr ⟨r, List.mem_cons_self _ _, h⟩
      · exact Or.inr ⟨r', List.mem_cons_of_mem _ hr', h⟩

/-- Loop-wide color provenance. -/
theorem foldl_importRow_colors_from (rows : List PRow) (st : DB × Nat)
    (c : Color) (hc : c ∈ (rows.foldl importRow st).1.colors) :
    c ∈ st.1.colors ∨ ∃ r ∈ rows,
      c.name = r.renk ∧ c.currency = r.paraBirimi ∧ c.price = r.fiyat := by
  induction rows generalizing st with
  | nil => exact Or.inl (by simpa using hc)
  | cons r rows ih =>
      simp only [List.foldl_cons] at hc
      rcases ih (importRow st r) hc with h | ⟨r', hr', h⟩
      · rcases importRow_colors_from st r c h with h | h
        · exact Or.inl h
        · exact Or.inr ⟨r, List.mem_cons_self _ _, h⟩
      · exact Or.inr ⟨r', List.mem_cons_of_mem _ hr', h⟩

/-- C10: whenever an upload succeeds, every stored Product is either
pre-existing or named by the string rendering of some surviving row's
Product Name cell with surrounding whitespace stripped, and every stored
Color is either pre-existing or carries the stripped string renderings of
some surviving row's Color and Currency cells together with that row's raw
Price cell.  Non-string cells go through the same rendering (`Cell.render`,
pandas `astype(str)`) and are imported, not rejected. -/
theorem c10_import_stores_stripped_renderings (filename : String) (s : Sheet)
    (db : DB) (res : DB × Nat)
    (h : upload_excel filename (some s) db = .ok res) :
    (∀ p ∈ res.1.products, p ∈ db.products ∨
      ∃ row ∈ s.rows, keepRow (stripHeaders s.headers) row = true ∧
        p.name =
          pyStrip (getCell (stripHeaders s.headers) row urunAdiCol).render) ∧
    (∀ c ∈ res.1.colors, c ∈ db.colors ∨
      ∃ row ∈ s.rows, keepRow (stripHeaders s.headers) row = true ∧
        c.name =
          pyStrip (getCell (stripHeaders s.headers) row renkCol).render ∧
        c.currency =
          pyStrip (getCell (stripHeaders s.headers) row paraBirimiCol).render ∧
        c.price = getCell (stripHeaders s.headers) row fiyatCol) := by
  simp only [upload_excel] at h
  split at h
  · exact absurd h (by simp)
  · split at h
    · exact absurd h (by simp)
    · replace h := Except.ok.inj h
      subst h
      constructor
      · intro p hp
        have hp' : p ∈ ((processedRows
            ⟨stripHeaders s.headers, s.rows⟩).foldl importRow
              (db, 0)).1.products := by
          simpa [importRows] using hp
        rcases foldl_importRow_products_from _ _ p hp' with h1 | ⟨r, hr, h1⟩
        · exact Or.inl h1
        · have hr' : r ∈ (s.rows.filter
              (keepRow (stripHeaders s.headers))).map
              (toPRow (stripHeaders s.headers)) := hr
          rcases List.mem_map.mp hr' with ⟨row, hrow, hEq⟩
          rcases List.mem_filter.mp hrow with ⟨hmem, hkeep⟩
          refine Or.inr ⟨row, hmem, hkeep, ?_⟩
          rw [h1, ← hEq]
          rfl
      · intro c hc
        have hc' : c ∈ ((processedRows
            ⟨stripHeaders s.headers, s.rows⟩).foldl importRow
              (db, 0)).1.colors := by
          simpa [importRows] using hc
        rcases foldl_importRow_colors_from _ _ c hc' with h1 | ⟨r, hr, h1⟩
        · exact Or.inl h1
        · have hr' : r ∈ (s.rows.filter
              (keepRow (stripHeaders s.headers))).map
              (toPRow (stripHeaders s.headers)) := hr
          rcases List.mem_map.mp hr' with ⟨row, hrow, hEq⟩
          rcases List.mem_filter.mp hrow with ⟨hmem, hkeep⟩
          refine Or.inr ⟨row, hmem, hkeep, ?_, ?_, ?_⟩
          · rw [h1.1, ← hEq]
            rfl
          · rw [h1.2.1, ← hEq]
            rfl
          · rw [h1.2.2, ← hEq]
            rfl

/-- A one-row sheet whose Product Name cell is numeric (a float 5.0). -/
def numNameSheet : Sheet :=
  ⟨[urunAdiCol, renkCol, fiyatCol, paraBirimiCol],
   [[.num 5, .str "Red", .num 10, .str "USD"]]⟩

/-- The store and commit count produced by importing `numNameSheet` into an
empty store: the numeric product-name cell is coerced to the string "5.0". -/
def numNameRes : DB × Nat :=
  (⟨[⟨1, "5.0"⟩], [⟨1, "Red", 1, .num 10, "USD"⟩], 2, 2⟩, 2)

/-- C10, instantiated on a sheet whose Product Name cell is the number 5:
the upload succeeds (the cell is coerced to "5.0", not rejected) and every
stored row's strings are stripped renderings of the surviving row's cells. -/
theorem c10_import_stores_stripped_renderings_witness :
    upload_excel "f.xlsx" (some numNameSheet) emptyDB = .ok numNameRes ∧
    ((∀ p ∈ numNameRes.1.products, p ∈ emptyDB.products ∨
      ∃ row ∈ numNameSheet.rows,
        keepRow (stripHeaders numNameSheet.headers) row = true ∧
        p.name = pyStrip
          (getCell (stripHeaders numNameSheet.headers) row urunAdiCol).render) ∧
    (∀ c ∈ numNameRes.1.colors, c ∈ emptyDB.colors ∨
      ∃ row ∈ numNameSheet.rows,
        keepRow (stripHeaders numNameSheet.headers) row = true ∧
        c.name = pyStrip
          (getCell (stripHeaders numNameSheet.headers) row renkCol).render ∧
        c.currency = pyStrip
          (getCell (stripHeaders numNameSheet.headers) row paraBirimiCol).render ∧
        c.price = getCell (stripHeaders numNameSheet.headers) row fiyatCol)) :=
  ⟨by rfl,
   c10_import_stores_stripped_renderings "f.xlsx" numNameSheet emptyDB
     numNameRes (by rfl)⟩

end Tezgah
